import Mathlib

/-!
Shallow embedding of the URI-derivation helpers and format-name
translators of `ckanext/dcat/utils.py`.

The source module has three external effects, each modelled as an
explicit parameter:

* configuration reads (`config.get`) become a `Config` record of the
  three optional configuration values;
* fresh UUID generation (`uuid.uuid4()`) becomes a `String` parameter,
  one per potential generation site reached in a call;
* the legacy lookup (`model.Resource.get(rid).get_package_id()`) becomes
  a function `String → Option String` from a resource id to the owning
  dataset id of a persisted resource, `none` when no resource is found.

Python string truthiness (`not s` is true for `None` and for `""`) is
modelled by `truthy`; a Python `KeyError` raised by an unguarded
`dict[...]` access on a missing key is modelled by `Except.error ()`.
An optional record field whose value is `none` models the key being
absent from the dict.
-/

/-- Optional configuration values read by `catalog_uri` via `config.get`. -/
structure Config where
  base_uri : Option String
  site_url : Option String
  app_instance_uuid : Option String

/-- Python truthiness of a `config.get` or `dict.get` result: `None` and
the empty string are falsy, every other string is truthy. -/
def truthy : Option String → Bool
  | none => false
  | some s => !(s == "")

/-- Model of Python `s.rstrip('/')`: remove every trailing slash. -/
def rstripSlash (s : String) : String :=
  String.mk ((s.data.reverse.dropWhile (fun c => c == '/')).reverse)

/-- Removal of every occurrence of one character, the effect of Python
`s.replace(c, '')` for a single-character pattern. -/
def stripChar (c : Char) (s : String) : String :=
  String.mk (s.data.filter (fun x => !(x == c)))

/-- Model of Python `s.replace('{', '').replace('}', '')`: remove every
literal brace character (code points 123 and 125). -/
def stripBraces (s : String) : String :=
  stripChar (Char.ofNat 125) (stripChar (Char.ofNat 123) s)

/-- Rendering of an optional value interpolated by Python `str.format`:
`None` renders as the four-character string `"None"`, a string renders
as itself. -/
def pyStr : Option String → String
  | none => "None"
  | some s => s

/-- One entry of a dataset's `extras` list. -/
structure Extra where
  key : String
  value : String

/-- The nested `organization` record of a dataset dict.  The source
accesses `dataset_dict['organization']['id']` unconditionally once the
`organization` value is truthy, matching the data model in which the
nested record always carries an `id`. -/
structure Organization where
  id : String

/-- A dataset dict as read by the helpers: every field optional, with
`extras` defaulting to the empty list as in
`dataset_dict.get('extras', [])`.  The field `publisher_uri` is carried
although the source never reads it, so that statements can speak about
records holding only the correctly spelled key; the source reads the
misspelled `pubisher_uri` key. -/
structure DatasetDict where
  uri : Option String := none
  id : Option String := none
  extras : List Extra := []
  organization : Option Organization := none
  publisher_uri : Option String := none
  pubisher_uri : Option String := none

/-- A resource dict; `none` models the key being absent. -/
structure ResourceDict where
  uri : Option String := none
  id : Option String := none
  package_id : Option String := none

/-- Model of the extras scan
`for extra in extras: if extra['key'] == k: uri = extra['value']; break`:
the value of the first entry whose key matches, whether or not that
value is empty. -/
def firstExtraValue : List Extra → String → Option String
  | [], _ => none
  | e :: rest, k => if e.key == k then some e.value else firstExtraValue rest k

/-- True when the extras scan leaves the accumulator falsy: either no
entry with the given key exists, or the first matching entry carries an
empty value. -/
def extraMissOrEmpty (extras : List Extra) (k : String) : Bool :=
  match firstExtraValue extras k with
  | none => true
  | some v => v == ""

/-- Model of `catalog_uri()`: the first truthy of the
`ckanext.dcat.base_uri` and `ckan.site_url` configuration values, then
the brace-stripped `app_instance_uuid` value behind an `http://` prefix,
then a freshly generated UUID (the parameter `freshUuid`) behind the
same prefix.  The critical-level log emissions of the two weak branches
do not affect the result and are not modelled. -/
def catalog_uri (cfg : Config) (freshUuid : String) : String :=
  if truthy cfg.base_uri then cfg.base_uri.getD ""
  else if truthy cfg.site_url then cfg.site_url.getD ""
  else if truthy cfg.app_instance_uuid then
    "http://" ++ stripBraces (cfg.app_instance_uuid.getD "")
  else
    "http://" ++ freshUuid

/-- Model of `dataset_uri(dataset_dict)`.  `catUuid` feeds the
`catalog_uri()` calls and `dsUuid` is the fresh UUID of the final
fallback.  Mirrors the source: take the `uri` field; if falsy, scan
`extras` for the first entry with key `uri` (keeping its value even when
empty); if still falsy and the `id` field is truthy, build the id-based
URI; if still falsy, build a random URI. -/
def dataset_uri (cfg : Config) (catUuid dsUuid : String) (d : DatasetDict) : String :=
  let u1 := d.uri
  let u2 :=
    if truthy u1 then u1
    else
      match firstExtraValue d.extras "uri" with
      | some v => some v
      | none => u1
  let u3 :=
    if !truthy u2 && truthy d.id then
      some (rstripSlash (catalog_uri cfg catUuid) ++ "/dataset/" ++ d.id.getD "")
    else u2
  if truthy u3 then u3.getD ""
  else rstripSlash (catalog_uri cfg catUuid) ++ "/dataset/" ++ dsUuid

/-- Model of `dataset_id_from_resource(resource_dict)`: the truthy
`package_id` field if any; otherwise the legacy lookup by the resource's
`id` key, whose absence raises `KeyError` (`Except.error ()`).  A failed
lookup falls off the function, returning `None` (`Except.ok none`). -/
def dataset_id_from_resource (db : String → Option String) (r : ResourceDict) :
    Except Unit (Option String) :=
  if truthy r.package_id then Except.ok (some (r.package_id.getD ""))
  else
    match r.id with
    | none => Except.error ()
    | some rid =>
      match db rid with
      | some pid => Except.ok (some pid)
      | none => Except.ok none

/-- Model of `resource_uri(resource_dict)`: the truthy `uri` field if
any; otherwise resolve the dataset id (which may raise) and interpolate
it — rendered through `pyStr`, so an absent id appears as `"None"` —
together with the unguarded `resource_dict['id']` access, which raises
`KeyError` when the `id` key is absent. -/
def resource_uri (cfg : Config) (catUuid : String) (db : String → Option String)
    (r : ResourceDict) : Except Unit String :=
  if truthy r.uri then Except.ok (r.uri.getD "")
  else
    match dataset_id_from_resource db r with
    | Except.error e => Except.error e
    | Except.ok dsid =>
      match r.id with
      | none => Except.error ()
      | some rid =>
        Except.ok (rstripSlash (catalog_uri cfg catUuid) ++ "/dataset/" ++
          pyStr dsid ++ "/resource/" ++ rid)

/-- Model of `publisher_uri_from_dataset_dict(dataset_dict)`.  Mirrors
the source: read the misspelled `pubisher_uri` key; if falsy, scan
`extras` for the first entry with key `publisher_uri` (keeping its value
even when empty); if still falsy and an `organization` record is
present, build the organization-based URI; otherwise return the
accumulator (possibly `none`). -/
def publisher_uri_from_dataset_dict (cfg : Config) (catUuid : String)
    (d : DatasetDict) : Option String :=
  let u1 := d.pubisher_uri
  let u2 :=
    if truthy u1 then u1
    else
      match firstExtraValue d.extras "publisher_uri" with
      | some v => some v
      | none => u1
  if truthy u2 then u2
  else
    match d.organization with
    | some org =>
      some (rstripSlash (catalog_uri cfg catUuid) ++ "/organization/" ++ org.id)
    | none => u2

/-- Model of `url_to_rdflib_format(_format)`: endpoint format tokens to
rdflib ones, identity on everything unrecognized. -/
def url_to_rdflib_format (f : String) : String :=
  if f == "ttl" then "turtle"
  else if f == "rdf" || f == "xml" then "pretty-xml"
  else if f == "jsonld" then "json-ld"
  else f

/-- Model of `rdflib_to_url_format(_format)`: rdflib format tokens to
endpoint ones, identity on everything unrecognized. -/
def rdflib_to_url_format (f : String) : String :=
  if f == "turtle" then "ttl"
  else if f == "pretty-xml" then "xml"
  else if f == "json-ld" then "jsonld"
  else f









/-! ### Concrete fixtures used by witnesses and counterexamples -/

/-- Configuration with only the base URI set. -/
def cfgCat : Config := ⟨some "http://cat.org", none, none⟩

/-- Configuration whose base URI carries a trailing slash. -/
def cfgCatSlash : Config := ⟨some "http://cat.org/", none, none⟩

/-- Configuration with all three values set; the base URI must win. -/
def cfgAll : Config := ⟨some "http://cat.org", some "http://site.example", some "xyz"⟩

/-- A legacy lookup that knows no resource. -/
def dbEmpty : String → Option String := fun _ => none

/-! ### Helper lemmas -/

/-- A concatenation around a non-empty middle part is non-empty. -/
theorem append3_ne_empty (a b c : String) (h : b ≠ "") : a ++ b ++ c ≠ "" := by
  obtain ⟨la⟩ := a
  obtain ⟨lb⟩ := b
  obtain ⟨lc⟩ := c
  intro hc
  apply h
  have hd : la ++ lb ++ lc = [] := congrArg String.data hc
  have hb : lb = [] := (List.append_eq_nil.mp (List.append_eq_nil.mp hd).1).2
  rw [hb]

/-- A present non-empty string is truthy. -/
theorem truthy_some_ne (s : String) (h : s ≠ "") : truthy (some s) = true := by
  simp [truthy, h]

/-- An absent value is falsy. -/
theorem truthy_none_eq_false : truthy none = false := rfl

/-- C2: catalog_uri never fails and follows the four-step fallback chain:
the configured base URI when truthy (regardless of the other values),
else the site URL, else the brace-stripped app instance UUID behind
an http prefix, else a fresh UUID behind the same prefix. -/
theorem catalog_uri_chain (cfg : Config) (uu : String) :
    (truthy cfg.base_uri = true → catalog_uri cfg uu = cfg.base_uri.getD "") ∧
    (truthy cfg.base_uri = false → truthy cfg.site_url = true →
      catalog_uri cfg uu = cfg.site_url.getD "") ∧
    (truthy cfg.base_uri = false → truthy cfg.site_url = false →
      truthy cfg.app_instance_uuid = true →
      catalog_uri cfg uu = "http://" ++ stripBraces (cfg.app_instance_uuid.getD "")) ∧
    (truthy cfg.base_uri = false → truthy cfg.site_url = false →
      truthy cfg.app_instance_uuid = false →
      catalog_uri cfg uu = "http://" ++ uu) := by
  refine ⟨?_, ?_, ?_, ?_⟩ <;> intros <;> simp [catalog_uri, *]

/-- Witness for C2: with all three configuration values set, the base
URI is returned exactly. -/
theorem catalog_uri_chain_witness : catalog_uri cfgAll "u0" = "http://cat.org" :=
  ((catalog_uri_chain cfgAll "u0").1 rfl).trans rfl

/-- C5: composing the translators is the identity on the endpoint tokens
ttl and jsonld and on pass-through tokens such as n3, but not on rdf:
both rdf and xml map to pretty-xml and the return trip yields xml. -/
theorem format_roundtrip :
    rdflib_to_url_format (url_to_rdflib_format "ttl") = "ttl" ∧
    rdflib_to_url_format (url_to_rdflib_format "jsonld") = "jsonld" ∧
    rdflib_to_url_format (url_to_rdflib_format "n3") = "n3" ∧
    url_to_rdflib_format "rdf" = "pretty-xml" ∧
    url_to_rdflib_format "xml" = "pretty-xml" ∧
    rdflib_to_url_format (url_to_rdflib_format "rdf") = "xml" ∧
    rdflib_to_url_format (url_to_rdflib_format "xml") = "xml" ∧
    rdflib_to_url_format (url_to_rdflib_format "rdf") ≠ "rdf" := by decide

/-- C8: both translators are total functions on strings: the forward map
sends ttl to turtle, rdf and xml to pretty-xml, jsonld to json-ld and
everything else to itself; the reverse map sends turtle to ttl,
pretty-xml to xml, json-ld to jsonld and everything else to itself. -/
theorem format_maps_total (f : String) :
    (url_to_rdflib_format "ttl" = "turtle" ∧
     url_to_rdflib_format "rdf" = "pretty-xml" ∧
     url_to_rdflib_format "xml" = "pretty-xml" ∧
     url_to_rdflib_format "jsonld" = "json-ld") ∧
    (f ≠ "ttl" → f ≠ "rdf" → f ≠ "xml" → f ≠ "jsonld" →
      url_to_rdflib_format f = f) ∧
    (rdflib_to_url_format "turtle" = "ttl" ∧
     rdflib_to_url_format "pretty-xml" = "xml" ∧
     rdflib_to_url_format "json-ld" = "jsonld") ∧
    (f ≠ "turtle" → f ≠ "pretty-xml" → f ≠ "json-ld" →
      rdflib_to_url_format f = f) := by
  refine ⟨by decide, ?_, by decide, ?_⟩ <;> intros <;>
    simp [url_to_rdflib_format, rdflib_to_url_format, *]

/-- Witness for C8: the unrecognized token n3 passes through both maps. -/
theorem format_maps_total_witness :
    url_to_rdflib_format "n3" = "n3" ∧ rdflib_to_url_format "n3" = "n3" :=
  ⟨(format_maps_total "n3").2.1 (by decide) (by decide) (by decide) (by decide),
   (format_maps_total "n3").2.2.2 (by decide) (by decide) (by decide)⟩

/-- A present empty string is falsy. -/
theorem truthy_some_empty : truthy (some "") = false := rfl

/-- Shared fallback lemma for dataset_uri: once the uri field is falsy
and the extras scan yields nothing usable, the result is the id-based
URI when the id field is truthy and the random URI otherwise. -/
theorem dataset_uri_fallback_cases (cfg : Config) (cu du : String) (d : DatasetDict)
    (h1 : truthy d.uri = false) (h2 : extraMissOrEmpty d.extras "uri" = true) :
    (truthy d.id = true →
      dataset_uri cfg cu du d =
        rstripSlash (catalog_uri cfg cu) ++ "/dataset/" ++ d.id.getD "") ∧
    (truthy d.id = false →
      dataset_uri cfg cu du d =
        rstripSlash (catalog_uri cfg cu) ++ "/dataset/" ++ du) := by
  have hne : rstripSlash (catalog_uri cfg cu) ++ "/dataset/" ++ d.id.getD "" ≠ "" :=
    append3_ne_empty _ _ _ (by decide)
  constructor <;> intro h3 <;>
    rcases hfe : firstExtraValue d.extras "uri" with _ | v
  · simp [dataset_uri, h1, h3, hfe, truthy_some_ne _ hne]
  · have hv : v = "" := by simpa [extraMissOrEmpty, hfe] using h2
    subst hv
    simp [dataset_uri, h1, h3, hfe, truthy_some_empty, truthy_some_ne _ hne]
  · simp [dataset_uri, h1, h3, hfe]
  · have hv : v = "" := by simpa [extraMissOrEmpty, hfe] using h2
    subst hv
    simp [dataset_uri, h1, h3, hfe, truthy_some_empty]

/-- C1 (amended): dataset_uri never fails and follows the fallback
chain: the truthy uri field; else the value of the first extras entry
with key uri provided that value is non-empty; else the id-based URI
when the id field is truthy; else the random URI. -/
theorem dataset_uri_chain (cfg : Config) (cu du : String) (d : DatasetDict) :
    (truthy d.uri = true → dataset_uri cfg cu du d = d.uri.getD "") ∧
    (truthy d.uri = false → ∀ v, firstExtraValue d.extras "uri" = some v → v ≠ "" →
      dataset_uri cfg cu du d = v) ∧
    (truthy d.uri = false → extraMissOrEmpty d.extras "uri" = true →
      truthy d.id = true →
      dataset_uri cfg cu du d =
        rstripSlash (catalog_uri cfg cu) ++ "/dataset/" ++ d.id.getD "") ∧
    (truthy d.uri = false → extraMissOrEmpty d.extras "uri" = true →
      truthy d.id = false →
      dataset_uri cfg cu du d =
        rstripSlash (catalog_uri cfg cu) ++ "/dataset/" ++ du) := by
  refine ⟨?_, ?_, ?_, ?_⟩
  · intro h1
    simp [dataset_uri, h1]
  · intro h1 v hfe hv
    simp [dataset_uri, h1, hfe, truthy_some_ne v hv]
  · intro h1 h2 h3
    exact (dataset_uri_fallback_cases cfg cu du d h1 h2).1 h3
  · intro h1 h2 h3
    exact (dataset_uri_fallback_cases cfg cu du d h1 h2).2 h3

/-- Dataset record whose first (and only) extras entry with key uri has
an empty value, alongside a usable id. -/
def dsEmptyExtra : DatasetDict := { id := some "abc", extras := [⟨"uri", ""⟩] }

/-- Counterexample for C1 as stated: the extras entry with key uri is
present and first, so under a first-match-wins reading its (empty)
value would be returned; the code instead falls through and returns the
id-based URI. -/
theorem dataset_uri_empty_extra_cex :
    truthy dsEmptyExtra.uri = false ∧
    firstExtraValue dsEmptyExtra.extras "uri" = some "" ∧
    dataset_uri cfgCat "u0" "u1" dsEmptyExtra = "http://cat.org/dataset/abc" ∧
    dataset_uri cfgCat "u0" "u1" dsEmptyExtra ≠ "" := by decide

/-- Dataset record holding only an id. -/
def dsAbc : DatasetDict := { id := some "abc" }

/-- Witness for C1: a trailing slash on the catalog URI does not
duplicate in the id-based dataset URI. -/
theorem dataset_uri_chain_witness :
    dataset_uri cfgCatSlash "u0" "u1" dsAbc = "http://cat.org/dataset/abc" :=
  ((dataset_uri_chain cfgCatSlash "u0" "u1" dsAbc).2.2.1 rfl rfl rfl).trans (by decide)

/-- C10: when the first extras entry with key uri carries an empty
value, the scan stops there, the empty value counts as no match, and
the function falls through to the id-based or random URI no matter what
later extras entries (the list rest) contain. -/
theorem dataset_uri_first_empty_extra (cfg : Config) (cu du : String)
    (d : DatasetDict) (rest : List Extra)
    (h0 : truthy d.uri = false) (h1 : d.extras = ⟨"uri", ""⟩ :: rest) :
    (truthy d.id = true →
      dataset_uri cfg cu du d =
        rstripSlash (catalog_uri cfg cu) ++ "/dataset/" ++ d.id.getD "") ∧
    (truthy d.id = false →
      dataset_uri cfg cu du d =
        rstripSlash (catalog_uri cfg cu) ++ "/dataset/" ++ du) := by
  have h2 : extraMissOrEmpty d.extras "uri" = true := by
    simp [extraMissOrEmpty, firstExtraValue, h1]
  exact dataset_uri_fallback_cases cfg cu du d h0 h2

/-- Dataset record whose first extras entry with key uri is empty while
a later one carries a non-empty value. -/
def dsLateExtra : DatasetDict :=
  { id := some "abc", extras := [⟨"uri", ""⟩, ⟨"uri", "http://late.example"⟩] }

/-- Witness for C10: the later non-empty extras entry is ignored and the
id-based URI wins. -/
theorem dataset_uri_first_empty_extra_witness :
    dataset_uri cfgCat "u0" "u1" dsLateExtra = "http://cat.org/dataset/abc" :=
  ((dataset_uri_first_empty_extra cfgCat "u0" "u1" dsLateExtra
    [⟨"uri", "http://late.example"⟩] rfl rfl).1 rfl).trans (by decide)

/-- C3 (amended): resource_uri fails with a key-not-found error exactly
when the resource record has no usable uri field and no id key,
regardless of the package_id field: the unguarded access to the id key
in the URI template also fails when a non-empty package_id resolved the
dataset id.  In every other case a string is returned.  The failure is
the returned error, not a recovered value. -/
theorem resource_uri_error_iff (cfg : Config) (cu : String)
    (db : String → Option String) (r : ResourceDict) :
    (resource_uri cfg cu db r = Except.error () ↔
      truthy r.uri = false ∧ r.id = none) ∧
    (truthy r.uri = true ∨ r.id ≠ none →
      ∃ s, resource_uri cfg cu db r = Except.ok s) := by
  have hiff : resource_uri cfg cu db r = Except.error () ↔
      truthy r.uri = false ∧ r.id = none := by
    by_cases hu : truthy r.uri = true
    · simp [resource_uri, hu]
    · have hu2 : truthy r.uri = false := by simpa using hu
      rcases hid : r.id with _ | rid
      · by_cases hp : truthy r.package_id = true
        · simp [resource_uri, dataset_id_from_resource, hu2, hid, hp]
        · have hp2 : truthy r.package_id = false := by simpa using hp
          simp [resource_uri, dataset_id_from_resource, hu2, hid, hp2]
      · by_cases hp : truthy r.package_id = true
        · simp [resource_uri, dataset_id_from_resource, hu2, hid, hp]
        · have hp2 : truthy r.package_id = false := by simpa using hp
          rcases hdb : db rid with _ | pid
          · simp [resource_uri, dataset_id_from_resource, hu2, hid, hp2, hdb]
          · simp [resource_uri, dataset_id_from_resource, hu2, hid, hp2, hdb]
  refine ⟨hiff, ?_⟩
  intro h
  rcases hres : resource_uri cfg cu db r with e | s
  · cases e
    rcases hiff.mp hres with ⟨h1, h2⟩
    rcases h with h | h
    · rw [h1] at h
      exact Bool.noConfusion h
    · exact absurd h2 h
  · exact ⟨s, rfl⟩

/-- Resource record with a non-empty package_id but no uri and no id. -/
def rPkgNoId : ResourceDict := { package_id := some "d1" }

/-- Counterexample for C3 as stated: the record has a non-empty
package_id, so under the claim the error branch would be unreachable
and a string returned; the code fails with the key-not-found error. -/
theorem resource_uri_pkg_no_id_cex :
    truthy rPkgNoId.package_id = true ∧ truthy rPkgNoId.uri = false ∧
    rPkgNoId.id = none ∧
    resource_uri cfgCat "u0" dbEmpty rPkgNoId = Except.error () :=
  ⟨rfl, rfl, rfl, rfl⟩

/-- Resource record with both an id and a package_id. -/
def rFull : ResourceDict := { id := some "r1", package_id := some "d1" }

/-- Witness for C3: a record with an id key yields a string. -/
theorem resource_uri_error_iff_witness :
    ∃ s, resource_uri cfgCat "u0" dbEmpty rFull = Except.ok s :=
  (resource_uri_error_iff cfgCat "u0" dbEmpty rFull).2 (Or.inr (by decide))

/-- C6: with no usable uri field, a truthy package_id and an id key, the
resource URI is the stripped catalog URI followed by the dataset and
resource segments. -/
theorem resource_uri_package_path (cfg : Config) (cu : String)
    (db : String → Option String) (r : ResourceDict) (rid : String)
    (h1 : truthy r.uri = false) (h2 : truthy r.package_id = true)
    (h3 : r.id = some rid) :
    resource_uri cfg cu db r =
      Except.ok (rstripSlash (catalog_uri cfg cu) ++ "/dataset/" ++
        r.package_id.getD "" ++ "/resource/" ++ rid) := by
  simp [resource_uri, dataset_id_from_resource, h1, h2, h3, pyStr]

/-- Witness for C6: the documented concrete example. -/
theorem resource_uri_package_path_witness :
    resource_uri cfgCat "u0" dbEmpty rFull =
      Except.ok "http://cat.org/dataset/d1/resource/r1" :=
  (resource_uri_package_path cfgCat "u0" dbEmpty rFull "r1" rfl rfl rfl).trans (by rfl)

/-- C9: with no usable uri, no package_id, an id key present and a
legacy lookup that finds nothing, resource_uri still returns a string:
the absent dataset id is interpolated through pyStr and renders as the
segment None. -/
theorem resource_uri_absent_dataset_id (cfg : Config) (cu : String)
    (db : String → Option String) (r : ResourceDict) (rid : String)
    (h1 : truthy r.uri = false) (h2 : r.package_id = none)
    (h3 : r.id = some rid) (h4 : db rid = none) :
    resource_uri cfg cu db r =
      Except.ok (rstripSlash (catalog_uri cfg cu) ++ "/dataset/" ++
        pyStr none ++ "/resource/" ++ rid) := by
  simp [resource_uri, dataset_id_from_resource, h1, h2, h3, h4,
    truthy_none_eq_false]

/-- Resource record holding only an id. -/
def rIdOnly : ResourceDict := { id := some "r9" }

/-- Witness for C9: the dataset segment renders as None. -/
theorem resource_uri_absent_dataset_id_witness :
    resource_uri cfgCat "u0" dbEmpty rIdOnly =
      Except.ok "http://cat.org/dataset/None/resource/r9" :=
  (resource_uri_absent_dataset_id cfgCat "u0" dbEmpty rIdOnly "r9"
    rfl rfl rfl rfl).trans (by rfl)

/-- C4: step 1 of publisher_uri_from_dataset_dict reads the misspelled
key pubisher_uri: a record whose only relevant field is a correctly
spelled top-level publisher_uri yields no value, while a truthy
pubisher_uri field is returned as the first match. -/
theorem publisher_uri_misspelled_key (cfg : Config) (cu : String) (d : DatasetDict) :
    (truthy d.publisher_uri = true → d.pubisher_uri = none →
      firstExtraValue d.extras "publisher_uri" = none → d.organization = none →
      publisher_uri_from_dataset_dict cfg cu d = none) ∧
    (truthy d.pubisher_uri = true →
      publisher_uri_from_dataset_dict cfg cu d = d.pubisher_uri) := by
  constructor
  · intro _ h1 h2 h3
    simp [publisher_uri_from_dataset_dict, h1, h2, h3, truthy_none_eq_false]
  · intro h1
    simp [publisher_uri_from_dataset_dict, h1]

/-- Dataset record whose only set field is the correctly spelled
publisher_uri, which the source never reads. -/
def dsGoodSpell : DatasetDict := { publisher_uri := some "http://pub.example" }

/-- Witness for C4: the correctly spelled field is ignored. -/
theorem publisher_uri_misspelled_key_witness :
    publisher_uri_from_dataset_dict cfgCat "u0" dsGoodSpell = none :=
  (publisher_uri_misspelled_key cfgCat "u0" dsGoodSpell).1 rfl rfl rfl rfl

/-- C7: publisher_uri_from_dataset_dict never raises: it returns no
value or a string; when steps 1 and 2 leave the accumulator falsy and
an organization record is present it returns the organization-based
URI, and when no step applies it returns no value. -/
theorem publisher_uri_cases (cfg : Config) (cu : String) (d : DatasetDict) :
    (publisher_uri_from_dataset_dict cfg cu d = none ∨
      ∃ s, publisher_uri_from_dataset_dict cfg cu d = some s) ∧
    (truthy d.pubisher_uri = false →
      extraMissOrEmpty d.extras "publisher_uri" = true →
      ∀ org, d.organization = some org →
      publisher_uri_from_dataset_dict cfg cu d =
        some (rstripSlash (catalog_uri cfg cu) ++ "/organization/" ++ org.id)) ∧
    (d.pubisher_uri = none → firstExtraValue d.extras "publisher_uri" = none →
      d.organization = none →
      publisher_uri_from_dataset_dict cfg cu d = none) := by
  refine ⟨?_, ?_, ?_⟩
  · rcases hres : publisher_uri_from_dataset_dict cfg cu d with _ | s
    · exact Or.inl rfl
    · exact Or.inr ⟨s, rfl⟩
  · intro h1 h2 org horg
    rcases hfe : firstExtraValue d.extras "publisher_uri" with _ | v
    · simp [publisher_uri_from_dataset_dict, h1, hfe, horg]
    · have hv : v = "" := by simpa [extraMissOrEmpty, hfe] using h2
      subst hv
      simp [publisher_uri_from_dataset_dict, h1, hfe, horg, truthy_some_empty]
  · intro h1 h2 h3
    simp [publisher_uri_from_dataset_dict, h1, h2, h3, truthy_none_eq_false]

/-- Dataset record holding only a nested organization. -/
def dsOrg : DatasetDict := { organization := some ⟨"org1"⟩ }

/-- Witness for C7: the documented organization-based example. -/
theorem publisher_uri_cases_witness :
    publisher_uri_from_dataset_dict cfgCat "u0" dsOrg =
      some "http://cat.org/organization/org1" :=
  ((publisher_uri_cases cfgCat "u0" dsOrg).2.1 rfl rfl ⟨"org1"⟩ rfl).trans (by rfl)
